import Mathlib

/-!
Shallow embedding of the `lv` C++ binding layer (a fluent wrapper around the
LVGL graphics engine) and proofs of its specified properties.

Modelling conventions:
* A raw engine pointer (`lv_obj_t*`, `lv_draw_buf_t*`, `lv_draw_task_t*`) is a
  `Handle := Option Nat`; `none` models `nullptr`.
* Every call into the wrapped C engine is recorded as an `EngineCall` value;
  a wrapper operation is a Lean function returning its new state together with
  the list of engine calls it makes, in order.
* The engine itself lives outside this repository.  Where a property depends
  on engine behaviour, the engine is either taken as a parameter constrained
  by its documented contract, or modelled explicitly (marked in doc comments).
-/

namespace LvSpec

/-- Abstract address of an engine resource; `none` models a null pointer. -/
abbrev Handle := Option Nat

/-- Model of `lv_area_t`: a rectangle given by its two corners. -/
structure LvArea where
  x1 : Int
  y1 : Int
  x2 : Int
  y2 : Int
deriving DecidableEq, Repr

/-- Style property names targeted by the fluent setters in
`src/include/lv/core/style.hpp` (each corresponds to one
`lv_style_set_<prop>` / `lv_obj_set_style_<prop>` engine entry point). -/
inductive StyleProp where
  | bgColor | bgOpa | borderColor | borderWidth | radius | opa
  | marginTop | marginBottom | marginLeft | marginRight
  | padAll | padTop | padBottom | padLeft | padRight | padRow | padColumn
  | shadowOffsetX | shadowOffsetY
  | transformPivotX | transformPivotY
  | width | height
  | textColor
deriving DecidableEq, Repr

/-- Object flags used by the mixin mutators (`LV_OBJ_FLAG_*`). -/
inductive ObjFlag where
  | hidden | clickable | scrollable
deriving DecidableEq, Repr

/-- Model of `lv_result_t`: the engine's own result code enumeration. -/
inductive LvResult where
  | ok | invalid
deriving DecidableEq, Repr

/-- Model of `lv_draw_task_type_t` (subset used by the wrappers;
`none_` models `LV_DRAW_TASK_TYPE_NONE`). -/
inductive DrawTaskType where
  | none_ | fill | border | boxShadow | label | image | line | arc | triangle
deriving DecidableEq, Repr

/-- One call made by the binding layer into the wrapped C engine, with the
arguments the binding passes.  Pointer arguments are `Handle`s so that an
unguarded call with a null wrapper is visible in the trace. -/
inductive EngineCall where
  | objDelete (obj : Handle)
  | objClean (obj : Handle)
  | objSetSize (obj : Handle) (w h : Int)
  | objSetWidth (obj : Handle) (w : Int)
  | objSetHeight (obj : Handle) (h : Int)
  | objSetPos (obj : Handle) (x y : Int)
  | objCenter (obj : Handle)
  | objAddFlag (obj : Handle) (flag : ObjFlag)
  | objRemoveFlag (obj : Handle) (flag : ObjFlag)
  | objSetStyleProp (obj : Handle) (prop : StyleProp) (v : Int) (sel : Nat)
  | styleSetProp (style : Nat) (prop : StyleProp) (v : Int)
  | styleInit (style : Nat)
  | styleReset (style : Nat)
  | drawBufDestroy (buf : Handle)
  | drawBufClear (buf : Handle) (area : Option LvArea)
  | drawBufSetPalette (buf : Handle) (index : Nat) (color : Nat)
  | drawBufInvalidateCache (buf : Handle) (area : Option LvArea)
  | drawBufPremultiply (buf : Handle)
  | drawBufAdjustStride (buf : Handle) (stride : Nat)
deriving DecidableEq, Repr

/-! ## ObjectView / Object (`src/include/lv/core/object.hpp`)

`ObjectView` holds a raw (possibly null) `lv_obj_t*` and never frees it.
`Object` adds RAII: its destructor deletes a non-null handle.  Both are
modelled by their single field `m_obj`. -/

/-- State of an `ObjectView` / `Object` wrapper: its `m_obj` pointer. -/
structure ObjectW where
  m_obj : Handle
deriving DecidableEq, Repr

/-- `ObjectView::del()`: `if (m_obj) { lv_obj_delete(m_obj); m_obj = nullptr; }`. -/
def ObjectW.del (o : ObjectW) : ObjectW × List EngineCall :=
  match o.m_obj with
  | some h => (⟨none⟩, [.objDelete (some h)])
  | none => (o, [])

/-- `Object::~Object()`: `if (m_obj) { lv_obj_delete(m_obj); }` — the calls the
destructor makes. -/
def ObjectW.destruct (o : ObjectW) : List EngineCall :=
  match o.m_obj with
  | some h => [.objDelete (some h)]
  | none => []

/-- `Object(Object&& other)`: steal `other.m_obj`, null the source; no engine
call.  Returns (destination, moved-from source, engine calls). -/
def ObjectW.moveCtor (src : ObjectW) : ObjectW × ObjectW × List EngineCall :=
  (⟨src.m_obj⟩, ⟨none⟩, [])

/-- `Object::operator=(Object&& other)`.  `selfAssign` models the pointer
comparison `this == &other`: when true the body is skipped entirely.
Otherwise the current handle (if any) is deleted, the source handle is taken
and the source is nulled.  Returns (new destination, new source, calls). -/
def ObjectW.moveAssign (dst src : ObjectW) (selfAssign : Bool) :
    ObjectW × ObjectW × List EngineCall :=
  if selfAssign then
    (dst, src, [])
  else
    (⟨src.m_obj⟩, ⟨none⟩,
      match dst.m_obj with
      | some h => [.objDelete (some h)]
      | none => [])

/-! ## DrawBuf (`src/include/lv/draw/draw_buf.hpp`) -/

/-- State of a `DrawBuf` wrapper: its `m_buf` pointer. -/
structure DrawBufW where
  m_buf : Handle
deriving DecidableEq, Repr

/-- `DrawBuf::~DrawBuf()`: `if (m_buf) { lv_draw_buf_destroy(m_buf); }`. -/
def DrawBufW.destruct (b : DrawBufW) : List EngineCall :=
  match b.m_buf with
  | some h => [.drawBufDestroy (some h)]
  | none => []

/-- `DrawBuf(DrawBuf&& other)`: steal the buffer, null the source. -/
def DrawBufW.moveCtor (src : DrawBufW) : DrawBufW × DrawBufW × List EngineCall :=
  (⟨src.m_buf⟩, ⟨none⟩, [])

/-- `DrawBuf::operator=(DrawBuf&& other)` with the `this != &other` guard
modelled by `selfAssign`. -/
def DrawBufW.moveAssign (dst src : DrawBufW) (selfAssign : Bool) :
    DrawBufW × DrawBufW × List EngineCall :=
  if selfAssign then
    (dst, src, [])
  else
    (⟨src.m_buf⟩, ⟨none⟩,
      match dst.m_buf with
      | some h => [.drawBufDestroy (some h)]
      | none => [])

/-- `DrawBuf::clear`: guarded — `if (m_buf) { lv_draw_buf_clear(m_buf, area); }`. -/
def DrawBufW.clear (b : DrawBufW) (area : Option LvArea) : DrawBufW × List EngineCall :=
  match b.m_buf with
  | some h => (b, [.drawBufClear (some h) area])
  | none => (b, [])

/-- `DrawBuf::set_palette`: guarded on `m_buf`. -/
def DrawBufW.set_palette (b : DrawBufW) (index : Nat) (color : Nat) :
    DrawBufW × List EngineCall :=
  match b.m_buf with
  | some h => (b, [.drawBufSetPalette (some h) index color])
  | none => (b, [])

/-- `DrawBuf::invalidate_cache`: guarded on `m_buf`. -/
def DrawBufW.invalidate_cache (b : DrawBufW) (area : Option LvArea) :
    DrawBufW × List EngineCall :=
  match b.m_buf with
  | some h => (b, [.drawBufInvalidateCache (some h) area])
  | none => (b, [])

/-- `DrawBuf::premultiply`: guarded on `m_buf`. -/
def DrawBufW.premultiply (b : DrawBufW) : DrawBufW × List EngineCall :=
  match b.m_buf with
  | some h => (b, [.drawBufPremultiply (some h)])
  | none => (b, [])

/-- `DrawBuf::width`: `return m_buf ? m_buf->header.w : 0;` — the engine-side
width is a parameter (a read of `m_buf->header.w`). -/
def DrawBufW.width (engineWidth : Nat → Nat) (b : DrawBufW) : Nat :=
  match b.m_buf with
  | some h => engineWidth h
  | none => 0

/-- `DrawBuf::adjust_stride`: `if (m_buf) return lv_draw_buf_adjust_stride(...);
return LV_RESULT_INVALID;` — the engine's verdict is a parameter. -/
def DrawBufW.adjust_stride (engineResult : LvResult) (b : DrawBufW) (stride : Nat) :
    LvResult × List EngineCall :=
  match b.m_buf with
  | some h => (engineResult, [.drawBufAdjustStride (some h) stride])
  | none => (.invalid, [])

/-! ## Style (`src/include/lv/core/style.hpp`)

`Style` embeds an `lv_style_t` by value.  The engine's `lv_style_t` is a
record of set properties; `lv_style_init` makes it empty, `lv_style_reset`
frees its property storage and zeroes it.  We model the record as an
association list of set properties, newest first. -/

/-- Model of `lv_style_t`: the properties currently set on the style. -/
structure LvStyleT where
  props : List (StyleProp × Int)
deriving DecidableEq, Repr

/-- `lv_style_init`: leaves the style with no properties set (engine
behaviour, modelled). -/
def LvStyleT.init : LvStyleT := ⟨[]⟩

/-- `lv_style_set_<prop>`: record the property, overriding any earlier value
for the same property (engine behaviour, modelled). -/
def LvStyleT.set (s : LvStyleT) (p : StyleProp) (v : Int) : LvStyleT :=
  ⟨(p, v) :: s.props.filter (fun q => q.1 != p)⟩

/-- `lv_style_reset`: frees the property storage and zeroes the struct
(engine behaviour, modelled).  The list of properties it releases is
`s.props`. -/
def LvStyleT.resetEngine (_s : LvStyleT) : LvStyleT := ⟨[]⟩

/-- State of a `Style` wrapper object: the address of the wrapper (identity
of `this` / of the embedded `&m_style`) and the embedded `lv_style_t`. -/
structure StyleObj where
  addr : Nat
  m_style : LvStyleT
deriving DecidableEq, Repr

/-- `Style::Style()` at address `a`: calls `lv_style_init(&m_style)`. -/
def StyleObj.construct (a : Nat) : StyleObj × List EngineCall :=
  (⟨a, LvStyleT.init⟩, [.styleInit a])

/-- `Style::~Style()`: calls `lv_style_reset(&m_style)`; the property records
this releases are exactly the ones currently set. -/
def StyleObj.destructFrees (o : StyleObj) : List (StyleProp × Int) :=
  o.m_style.props

/-- `Style::reset()`: `lv_style_reset(&m_style); lv_style_init(&m_style);
return *this;`. -/
def StyleObj.reset (o : StyleObj) : StyleObj × List EngineCall :=
  ({ o with m_style := LvStyleT.init }, [.styleReset o.addr, .styleInit o.addr])

/-- `Style(Style&& other)` at destination address `a`:
`m_style(other.m_style)` then `lv_style_init(&other.m_style)`.
Returns (destination, moved-from source, engine calls). -/
def StyleObj.moveCtor (a : Nat) (src : StyleObj) :
    StyleObj × StyleObj × List EngineCall :=
  (⟨a, src.m_style⟩, { src with m_style := LvStyleT.init }, [.styleInit src.addr])

/-- `Style::operator=(Style&& other)` with the `this != &other` guard modelled
by `selfAssign`: reset own record, shallow-copy the source record, re-init
the source. -/
def StyleObj.moveAssign (dst src : StyleObj) (selfAssign : Bool) :
    StyleObj × StyleObj × List EngineCall :=
  if selfAssign then
    (dst, src, [])
  else
    ({ dst with m_style := src.m_style },
     { src with m_style := LvStyleT.init },
     [.styleReset dst.addr, .styleInit src.addr])

/-! ## Fluent mutators of the `Style` value object

Each fluent setter of `Style` is one constructor of `StyleOp`; `applyStyleOp`
gives its effect on the embedded record and the engine calls it forwards,
taken verbatim from the member bodies in `style.hpp`. -/

/-- Fluent mutators of the `Style` value object (representative set from
`style.hpp`, including every multi-property convenience setter of the class). -/
inductive StyleOp where
  | bg_color (c : Int)
  | bg_opa (o : Int)
  | border_color (c : Int)
  | border_width (w : Int)
  | radius (r : Int)
  | opa (o : Int)
  | margin_all (m : Int)
  | margin_top (m : Int)
  | margin_bottom (m : Int)
  | margin_left (m : Int)
  | margin_right (m : Int)
  | pad_all (p : Int)
  | pad_row (p : Int)
  | pad_column (p : Int)
  | pad_gap (p : Int)
  | shadow_offset (x y : Int)
  | transform_pivot (x y : Int)
  | width (w : Int)
  | height (h : Int)
  | text_color (c : Int)
deriving DecidableEq, Repr

/-- Pairs of (property, value) a `Style` mutator forwards to the engine, in
call order — read off the member bodies in `style.hpp`. -/
def StyleOp.sets : StyleOp → List (StyleProp × Int)
  | .bg_color c => [(.bgColor, c)]
  | .bg_opa o => [(.bgOpa, o)]
  | .border_color c => [(.borderColor, c)]
  | .border_width w => [(.borderWidth, w)]
  | .radius r => [(.radius, r)]
  | .opa o => [(.opa, o)]
  | .margin_all m =>
      [(.marginTop, m), (.marginBottom, m), (.marginLeft, m), (.marginRight, m)]
  | .margin_top m => [(.marginTop, m)]
  | .margin_bottom m => [(.marginBottom, m)]
  | .margin_left m => [(.marginLeft, m)]
  | .margin_right m => [(.marginRight, m)]
  | .pad_all p => [(.padAll, p)]
  | .pad_row p => [(.padRow, p)]
  | .pad_column p => [(.padColumn, p)]
  | .pad_gap p => [(.padRow, p), (.padColumn, p)]
  | .shadow_offset x y => [(.shadowOffsetX, x), (.shadowOffsetY, y)]
  | .transform_pivot x y => [(.transformPivotX, x), (.transformPivotY, y)]
  | .width w => [(.width, w)]
  | .height h => [(.height, h)]
  | .text_color c => [(.textColor, c)]

/-- Engine-call trace of one `Style` mutator at wrapper address `a`: one
`lv_style_set_<prop>(&m_style, v)` per property it sets. -/
def StyleOp.trace (op : StyleOp) (a : Nat) : List EngineCall :=
  op.sets.map (fun pv => .styleSetProp a pv.1 pv.2)

/-- Run one fluent `Style` mutator: mutate the embedded record in place and
return `*this` (the same object) plus the forwarded engine calls. -/
def StyleObj.applyOp (o : StyleObj) (op : StyleOp) : StyleObj × List EngineCall :=
  ({ o with m_style := op.sets.foldl (fun s pv => s.set pv.1 pv.2) o.m_style },
   op.trace o.addr)

/-- Chain a sequence of fluent `Style` mutator calls, as in
`style.bg_color(c).radius(r)...` — each call operates on the object returned
by the previous one. -/
def StyleObj.chain (o : StyleObj) : List StyleOp → StyleObj
  | [] => o
  | op :: ops => (o.applyOp op).1.chain ops

/-! ## Widget mixins (`ObjectMixin`, `StyleMixin`)

A widget wrapper is pointer-sized: its state is its address (the identity of
`this`) and its `m_obj` handle.  Mixin mutators forward to the engine against
`obj()` and `return *static_cast<Derived*>(this)`; they never change the
wrapper's own state.  Note there is no null guard: the handle is passed to
the engine as-is. -/

/-- State of a widget wrapper (any `ObjectView`-derived type composing the
mixins): wrapper address plus the wrapped handle. -/
structure Widget where
  addr : Nat
  m_obj : Handle
deriving DecidableEq, Repr

/-- Fluent mutators contributed by `ObjectMixin` and `StyleMixin`
(representative set from `object.hpp` / `style.hpp`, including every
multi-call convenience setter cited by the spec). -/
inductive ObjOp where
  | size (w h : Int)
  | width (w : Int)
  | height (h : Int)
  | pos (x y : Int)
  | center
  | hide
  | show
  | visible (v : Bool)
  | clickable (v : Bool)
  | scrollable (v : Bool)
  | mixin_bg_color (c : Int) (sel : Nat)
  | mixin_margin (m : Int) (sel : Nat)
  | mixin_margin_top (m : Int) (sel : Nat)
  | mixin_padding_hor (p : Int) (sel : Nat)
  | mixin_gap (g : Int) (sel : Nat)
  | mixin_part_size (w h : Int) (sel : Nat)
deriving DecidableEq, Repr

/-- Engine calls a mixin mutator forwards, taken verbatim from the member
bodies; `o` is the widget's `obj()` handle (passed unguarded). -/
def ObjOp.trace (op : ObjOp) (o : Handle) : List EngineCall :=
  match op with
  | .size w h => [.objSetSize o w h]
  | .width w => [.objSetWidth o w]
  | .height h => [.objSetHeight o h]
  | .pos x y => [.objSetPos o x y]
  | .center => [.objCenter o]
  | .hide => [.objAddFlag o .hidden]
  | .show => [.objRemoveFlag o .hidden]
  | .visible v => if v then [.objRemoveFlag o .hidden] else [.objAddFlag o .hidden]
  | .clickable v => if v then [.objAddFlag o .clickable] else [.objRemoveFlag o .clickable]
  | .scrollable v => if v then [.objAddFlag o .scrollable] else [.objRemoveFlag o .scrollable]
  | .mixin_bg_color c sel => [.objSetStyleProp o .bgColor c sel]
  | .mixin_margin m sel =>
      [.objSetStyleProp o .marginTop m sel, .objSetStyleProp o .marginBottom m sel,
       .objSetStyleProp o .marginLeft m sel, .objSetStyleProp o .marginRight m sel]
  | .mixin_margin_top m sel => [.objSetStyleProp o .marginTop m sel]
  | .mixin_padding_hor p sel =>
      [.objSetStyleProp o .padLeft p sel, .objSetStyleProp o .padRight p sel]
  | .mixin_gap g sel =>
      [.objSetStyleProp o .padRow g sel, .objSetStyleProp o .padColumn g sel]
  | .mixin_part_size w h sel =>
      [.objSetStyleProp o .width w sel, .objSetStyleProp o .height h sel]

/-- Run one mixin mutator: the wrapper state is untouched and the returned
reference is `*this` (the same `Widget`); only engine calls are made. -/
def Widget.applyOp (w : Widget) (op : ObjOp) : Widget × List EngineCall :=
  (w, op.trace w.m_obj)

/-- Chain a sequence of mixin mutator calls, as in `btn.size(..).center()...`. -/
def Widget.chain (w : Widget) : List ObjOp → Widget
  | [] => w
  | op :: ops => (w.applyOp op).1.chain ops

/-! ## DrawTaskView (`src/include/lv/draw/draw_task.hpp`) -/

/-- `DrawTaskView::type()`:
`return m_task ? lv_draw_task_get_type(m_task) : LV_DRAW_TASK_TYPE_NONE;`.
The engine's answer for a live task is the parameter `engineType`. -/
def DrawTaskViewW.type (engineType : Nat → DrawTaskType) (m_task : Handle) :
    DrawTaskType :=
  match m_task with
  | some h => engineType h
  | none => .none_

/-! ## Deferred draw pipeline (`draw::*` + `Canvas::finish_layer`)

The `draw::fill/border/...` free functions each make exactly one call
`lv_draw_<primitive>(layer, dsc [, coords])`.  The queueing and dispatch live
in the wrapped engine; per spec §4.4 each such call builds one task from the
descriptor (copied by value) and the target area and appends it to the
layer's pending task list, and finalizing flushes all pending tasks through
the dispatcher in submission order.  The descriptor payloads below carry the
fields exposed by the fluent wrappers (a representative subset of each
`lv_draw_*_dsc_t`). -/

/-- Payload of `lv_draw_fill_dsc_t` as exposed by `FillDsc`. -/
structure FillDescr where
  color : Int
  radius : Int
  opa : Int
deriving DecidableEq, Repr

/-- Payload of `lv_draw_border_dsc_t` as exposed by `BorderDsc`. -/
structure BorderDescr where
  color : Int
  bwidth : Int
  radius : Int
  opa : Int
deriving DecidableEq, Repr

/-- Payload of `lv_draw_box_shadow_dsc_t` as exposed by `BoxShadowDsc`. -/
structure BoxShadowDescr where
  color : Int
  bwidth : Int
  spread : Int
  ofs_x : Int
  ofs_y : Int
deriving DecidableEq, Repr

/-- Payload of `lv_draw_rect_dsc_t` as exposed by `RectDsc`. -/
structure RectDescr where
  bg_color : Int
  border_color : Int
  border_width : Int
  radius : Int
deriving DecidableEq, Repr

/-- Payload of `lv_draw_line_dsc_t` as exposed by `LineDsc`. -/
structure LineDescr where
  p1x : Int
  p1y : Int
  p2x : Int
  p2y : Int
  color : Int
  lwidth : Int
deriving DecidableEq, Repr

/-- Payload of `lv_draw_arc_dsc_t` as exposed by `ArcDsc`. -/
structure ArcDescr where
  cx : Int
  cy : Int
  radius : Int
  start_angle : Int
  end_angle : Int
  color : Int
deriving DecidableEq, Repr

/-- Payload of `lv_draw_triangle_dsc_t` as exposed by `TriangleDsc`. -/
structure TriangleDescr where
  x1 : Int
  y1 : Int
  x2 : Int
  y2 : Int
  x3 : Int
  y3 : Int
  color : Int
deriving DecidableEq, Repr

/-- Payload of `lv_draw_image_dsc_t` as exposed by `ImageDsc`; the image
source pointer is an abstract id. -/
structure ImageDescr where
  src : Nat
  opa : Int
deriving DecidableEq, Repr

/-- Payload of `lv_draw_label_dsc_t` as exposed by `LabelDsc`; the text is an
abstract id. -/
structure LabelDescr where
  text : Nat
  color : Int
deriving DecidableEq, Repr

/-- One queued draw task: a typed instruction with its descriptor payload
(copied by value at submission) and target area where the primitive takes
one. -/
inductive DrawTask where
  | fill (dsc : FillDescr) (coords : LvArea)
  | border (dsc : BorderDescr) (coords : LvArea)
  | box_shadow (dsc : BoxShadowDescr) (coords : LvArea)
  | rect (dsc : RectDescr) (coords : LvArea)
  | line (dsc : LineDescr)
  | arc (dsc : ArcDescr)
  | triangle (dsc : TriangleDescr)
  | image (dsc : ImageDescr) (coords : LvArea)
  | label (dsc : LabelDescr) (coords : LvArea)
deriving DecidableEq, Repr

/-- One `draw::<primitive>` submission against a layer, mirroring the nine
descriptor-taking overloads in `draw_rect.hpp`, `draw_line.hpp`,
`draw_arc.hpp`, `draw_triangle.hpp`, `draw_image.hpp`, `draw_label.hpp`. -/
inductive DrawSubmit where
  | fill (dsc : FillDescr) (coords : LvArea)
  | border (dsc : BorderDescr) (coords : LvArea)
  | box_shadow (dsc : BoxShadowDescr) (coords : LvArea)
  | rect (dsc : RectDescr) (coords : LvArea)
  | line (dsc : LineDescr)
  | arc (dsc : ArcDescr)
  | triangle (dsc : TriangleDescr)
  | image (dsc : ImageDescr) (coords : LvArea)
  | label (dsc : LabelDescr) (coords : LvArea)
deriving DecidableEq, Repr

/-- The task a submission builds (descriptor copied by value, area attached). -/
def DrawSubmit.toTask : DrawSubmit → DrawTask
  | .fill dsc coords => .fill dsc coords
  | .border dsc coords => .border dsc coords
  | .box_shadow dsc coords => .box_shadow dsc coords
  | .rect dsc coords => .rect dsc coords
  | .line dsc => .line dsc
  | .arc dsc => .arc dsc
  | .triangle dsc => .triangle dsc
  | .image dsc coords => .image dsc coords
  | .label dsc coords => .label dsc coords

/-- Modelled from the spec: state of an `lv_layer_t` bound to a drawing
surface — its pending, append-only draw-task list (the queueing itself is
engine code outside this repository; spec §4.4). -/
structure LayerW where
  pending : List DrawTask
deriving DecidableEq, Repr

/-- Modelled from the spec: `Canvas::init_layer` binds the layer to the
canvas and leaves it ready to accept tasks, with nothing pending
(`lv_canvas_init_layer` is engine code; spec §4.4). -/
def LayerW.initLayer : LayerW := ⟨[]⟩

/-- One `draw::<primitive>(layer, dsc, ...)` call: a single forwarding call
to `lv_draw_<primitive>`, which (modelled from the spec, §4.4) builds one
task from the descriptor and appends it to the layer's pending list. -/
def LayerW.submit (l : LayerW) (s : DrawSubmit) : LayerW :=
  ⟨l.pending ++ [s.toTask]⟩

/-- Submit a batch of descriptors in order, as the caller would. -/
def LayerW.submitAll (l : LayerW) (subs : List DrawSubmit) : LayerW :=
  subs.foldl LayerW.submit l

/-- Modelled from the spec: `Canvas::finish_layer` forwards to
`lv_canvas_finish_layer`, which flushes every pending task through the
dispatcher in queue order (spec §4.4); the result is the sequence of tasks
the dispatcher receives. -/
def LayerW.finishLayer (l : LayerW) : List DrawTask := l.pending

/-! ## Color mix (`src/include/lv/core/color.hpp`)

`lv::color_mix(c1, c2, ratio)` forwards as `lv_color_mix(c2, c1, ratio)` —
the binding swaps the arguments because the engine's `lv_color_mix(a, b, mix)`
returns `a` at `mix = 255` and `b` at `mix = 0`, while the wrapper documents
`ratio 0 = c1, 255 = c2`. -/

/-- Model of `lv_color_t`: 8-bit RGB components. -/
structure LvColor where
  red : Nat
  green : Nat
  blue : Nat
deriving DecidableEq, Repr

/-- `lv::color_mix`, parametric in the engine's `lv_color_mix`:
`return lv_color_mix(c2, c1, ratio);` — note the swapped argument order. -/
def color_mix (engineMix : LvColor → LvColor → Nat → LvColor)
    (c1 c2 : LvColor) (ratio : Nat) : LvColor :=
  engineMix c2 c1 ratio

/-- Modelled from the spec: the wrapped engine's `lv_color_mix(a, b, mix)`
(engine code outside this repository), blending each component as
`(mix * a + (255 - mix) * b + 128) / 255`, so `mix = 255` yields `a` and
`mix = 0` yields `b` — the contract the wrapper's argument swap relies on. -/
def lv_color_mix_model (a b : LvColor) (mix : Nat) : LvColor :=
  ⟨(mix * a.red + (255 - mix) * b.red + 128) / 255,
   (mix * a.green + (255 - mix) * b.green + 128) / 255,
   (mix * a.blue + (255 - mix) * b.blue + 128) / 255⟩

/-! ## Barcode / QRCode result pass-through (`libs/barcode.hpp`, `libs/qrcode.hpp`) -/

/-- `Barcode::data(text)`:
`return lv_barcode_update(m_obj, text) == LV_RESULT_OK;` — the engine's
verdict for this update is the parameter. -/
def Barcode.data (engineResult : LvResult) : Bool :=
  engineResult == .ok

/-- `QRCode::update(data, len)`:
`return lv_qrcode_update(m_obj, data, len) == LV_RESULT_OK;`. -/
def QRCode.update (engineResult : LvResult) : Bool :=
  engineResult == .ok

/-! ## Helper lemmas -/

/-- Submitting a batch appends the corresponding tasks, in order, to whatever
was already pending. -/
lemma LayerW.submitAll_pending (l : LayerW) (subs : List DrawSubmit) :
    (l.submitAll subs).pending = l.pending ++ subs.map DrawSubmit.toTask := by
  induction subs generalizing l with
  | nil => simp [LayerW.submitAll]
  | cons s rest ih =>
      show ((l.submit s).submitAll rest).pending = _
      rw [ih]
      simp [LayerW.submit]

/-- Chaining fluent `Style` mutators never changes the wrapper's address. -/
lemma styleChainKeepsAddr (o : StyleObj) (ops : List StyleOp) :
    (o.chain ops).addr = o.addr := by
  induction ops generalizing o with
  | nil => rfl
  | cons op rest ih =>
      show (((o.applyOp op).1).chain rest).addr = o.addr
      rw [ih]
      rfl

/-- Chaining mixin mutators never changes the wrapper's address. -/
lemma widgetChainKeepsAddr (w : Widget) (ops : List ObjOp) :
    (w.chain ops).addr = w.addr := by
  induction ops generalizing w with
  | nil => rfl
  | cons op rest ih =>
      show (((w.applyOp op).1).chain rest).addr = w.addr
      rw [ih]
      rfl

/-- The modelled engine mix returns its first argument at `mix = 255`. -/
lemma lv_color_mix_model_full (a b : LvColor) : lv_color_mix_model a b 255 = a := by
  cases a
  cases b
  simp only [lv_color_mix_model, LvColor.mk.injEq]
  refine ⟨?_, ?_, ?_⟩ <;>
    · simp only [Nat.sub_self, Nat.zero_mul, Nat.add_zero, Nat.zero_add]
      rw [Nat.mul_add_div (by norm_num)]
      norm_num

/-- The modelled engine mix returns its second argument at `mix = 0`. -/
lemma lv_color_mix_model_zero (a b : LvColor) : lv_color_mix_model a b 0 = b := by
  cases a
  cases b
  simp only [lv_color_mix_model, LvColor.mk.injEq]
  refine ⟨?_, ?_, ?_⟩ <;>
    · simp only [Nat.zero_mul, Nat.sub_zero, Nat.zero_add]
      rw [Nat.mul_add_div (by norm_num)]
      norm_num

/-! ## Claim theorems -/

/-- C1: for a layer bound to a drawing surface, submitting N draw descriptors
via the `draw::*` functions and then finalizing with `finish_layer` delivers
exactly N draw tasks to the dispatcher, in submission order. -/
theorem draw_pipeline_submission_order (subs : List DrawSubmit) :
    (LayerW.initLayer.submitAll subs).finishLayer = subs.map DrawSubmit.toTask ∧
    ((LayerW.initLayer.submitAll subs).finishLayer).length = subs.length := by
  have h : (LayerW.initLayer.submitAll subs).finishLayer = subs.map DrawSubmit.toTask := by
    show (LayerW.initLayer.submitAll subs).pending = _
    rw [LayerW.submitAll_pending]
    rfl
  exact ⟨h, by rw [h]; exact List.length_map _ _⟩

/-- C7: `ObjectView::del()` deletes a live widget once and nulls the handle;
any further `del()` on the same view makes no engine call and keeps the
handle null, so the widget is never deleted twice. -/
theorem object_del_idempotent (h : Nat) :
    ObjectW.del ⟨some h⟩ = (⟨none⟩, [.objDelete (some h)]) ∧
    ObjectW.del ⟨none⟩ = (⟨none⟩, []) ∧
    ((ObjectW.del ⟨some h⟩).1.del).2 = [] ∧
    ((ObjectW.del ⟨some h⟩).2 ++ ((ObjectW.del ⟨some h⟩).1.del).2).count
        (.objDelete (some h)) = 1 := by
  refine ⟨rfl, rfl, rfl, ?_⟩
  simp [ObjectW.del]

/-- C6: `Barcode::data` and `QRCode::update` return `true` exactly when the
engine call returns `LV_RESULT_OK`, and `DrawBuf::adjust_stride` returns the
engine's `lv_result_t` unchanged for a live buffer (and the engine's
`LV_RESULT_INVALID`, without an engine call, for a null one). -/
theorem result_codes_pass_through (r : LvResult) (h stride : Nat) :
    (Barcode.data r = true ↔ r = .ok) ∧
    (QRCode.update r = true ↔ r = .ok) ∧
    (DrawBufW.adjust_stride r ⟨some h⟩ stride).1 = r ∧
    DrawBufW.adjust_stride r ⟨none⟩ stride = (.invalid, []) := by
  refine ⟨?_, ?_, rfl, rfl⟩ <;> cases r <;> simp [Barcode.data, QRCode.update]

/-- C9: self-move-assignment is a guarded no-op for `Object`, `DrawBuf` and
`Style`: the object and its resource are untouched and no engine call
(delete, destroy, reset or init) is made. -/
theorem self_move_assign_noop (x : ObjectW) (b : DrawBufW) (s : StyleObj) :
    ObjectW.moveAssign x x true = (x, x, []) ∧
    DrawBufW.moveAssign b b true = (b, b, []) ∧
    StyleObj.moveAssign s s true = (s, s, []) := by
  refine ⟨?_, ?_, ?_⟩ <;> simp [ObjectW.moveAssign, DrawBufW.moveAssign, StyleObj.moveAssign]

/-- C5: a default-constructed `Style` has no properties set, and any sequence
of property setters followed by `reset()` leaves the object observably
identical to a freshly default-constructed one. -/
theorem style_reset_restores_default (a a' : Nat) (ops : List StyleOp) :
    ((StyleObj.construct a).1.m_style.props = []) ∧
    (((StyleObj.construct a).1.chain ops).reset.1.m_style =
      (StyleObj.construct a').1.m_style) := by
  exact ⟨rfl, rfl⟩

/-- C8: every chainable mutator returns a reference to the very object it was
called on, so arbitrary chains of mixin or `Style` builder calls preserve the
object's identity (address). -/
theorem chaining_preserves_identity (o : StyleObj) (ops : List StyleOp)
    (w : Widget) (wops : List ObjOp) :
    (∀ op : StyleOp, (o.applyOp op).1.addr = o.addr) ∧
    (o.chain ops).addr = o.addr ∧
    (∀ wop : ObjOp, (w.applyOp wop).1.addr = w.addr) ∧
    (w.chain wops).addr = w.addr :=
  ⟨fun _ => rfl, styleChainKeepsAddr o ops, fun _ => rfl, widgetChainKeepsAddr w wops⟩

/-- C10: `lv::color_mix(c1, c2, 0)` returns `c1` and `lv::color_mix(c1, c2, 255)`
returns `c2`, as the wrapper documents — for any engine `lv_color_mix`
meeting its contract (first argument at `mix = 255`, second at `mix = 0`),
since the wrapper swaps the argument order. -/
theorem color_mix_ratio_endpoints
    (engineMix : LvColor → LvColor → Nat → LvColor)
    (hFull : ∀ a b : LvColor, engineMix a b 255 = a)
    (hZero : ∀ a b : LvColor, engineMix a b 0 = b)
    (c1 c2 : LvColor) :
    color_mix engineMix c1 c2 0 = c1 ∧ color_mix engineMix c1 c2 255 = c2 :=
  ⟨hZero c2 c1, hFull c2 c1⟩

/-- Witness for C10: instantiated with the modelled engine mix at concrete
colors. -/
theorem color_mix_ratio_endpoints_witness :
    color_mix lv_color_mix_model ⟨10, 20, 30⟩ ⟨40, 50, 60⟩ 0 = ⟨10, 20, 30⟩ ∧
    color_mix lv_color_mix_model ⟨10, 20, 30⟩ ⟨40, 50, 60⟩ 255 = ⟨40, 50, 60⟩ :=
  color_mix_ratio_endpoints lv_color_mix_model
    (fun a b => lv_color_mix_model_full a b)
    (fun a b => lv_color_mix_model_zero a b)
    ⟨10, 20, 30⟩ ⟨40, 50, 60⟩

/-- C2: for each owning handle type (`Object`, `DrawBuf`, `Style`),
move-construction and move-assignment hand the single owned resource to the
destination exactly once and leave the source so that its destructor frees
nothing; across the move and both destructors the transferred resource is
freed exactly once, never twice. -/
theorem owning_move_transfers_once :
    (∀ src : ObjectW,
      ObjectW.moveCtor src = (⟨src.m_obj⟩, ⟨none⟩, []) ∧
      (ObjectW.moveCtor src).2.1.destruct = []) ∧
    (∀ (hs : Nat) (hd : Handle), hd ≠ some hs →
      (ObjectW.moveAssign ⟨hd⟩ ⟨some hs⟩ false).1.m_obj = some hs ∧
      (ObjectW.moveAssign ⟨hd⟩ ⟨some hs⟩ false).2.1.m_obj = none ∧
      ((ObjectW.moveAssign ⟨hd⟩ ⟨some hs⟩ false).2.2 ++
        (ObjectW.moveAssign ⟨hd⟩ ⟨some hs⟩ false).1.destruct ++
        (ObjectW.moveAssign ⟨hd⟩ ⟨some hs⟩ false).2.1.destruct).count
          (.objDelete (some hs)) = 1) ∧
    (∀ src : DrawBufW,
      DrawBufW.moveCtor src = (⟨src.m_buf⟩, ⟨none⟩, []) ∧
      (DrawBufW.moveCtor src).2.1.destruct = []) ∧
    (∀ (hs : Nat) (hd : Handle), hd ≠ some hs →
      (DrawBufW.moveAssign ⟨hd⟩ ⟨some hs⟩ false).1.m_buf = some hs ∧
      (DrawBufW.moveAssign ⟨hd⟩ ⟨some hs⟩ false).2.1.m_buf = none ∧
      ((DrawBufW.moveAssign ⟨hd⟩ ⟨some hs⟩ false).2.2 ++
        (DrawBufW.moveAssign ⟨hd⟩ ⟨some hs⟩ false).1.destruct ++
        (DrawBufW.moveAssign ⟨hd⟩ ⟨some hs⟩ false).2.1.destruct).count
          (.drawBufDestroy (some hs)) = 1) ∧
    (∀ (a : Nat) (src : StyleObj),
      (StyleObj.moveCtor a src).1.m_style = src.m_style ∧
      (StyleObj.moveCtor a src).2.1.destructFrees = [] ∧
      (StyleObj.moveCtor a src).2.2 = [.styleInit src.addr]) ∧
    (∀ dst src : StyleObj,
      (StyleObj.moveAssign dst src false).1.m_style = src.m_style ∧
      (StyleObj.moveAssign dst src false).2.1.destructFrees = [] ∧
      (StyleObj.moveAssign dst src false).2.2 =
        [.styleReset dst.addr, .styleInit src.addr]) := by
  refine ⟨fun src => ⟨rfl, rfl⟩, ?_, fun src => ⟨rfl, rfl⟩, ?_, ?_, ?_⟩
  · intro hs hd hne
    refine ⟨rfl, rfl, ?_⟩
    cases hd with
    | none => simp [ObjectW.moveAssign, ObjectW.destruct]
    | some hd' =>
        have hne' : hd' ≠ hs := fun e => hne (by rw [e])
        simp [ObjectW.moveAssign, ObjectW.destruct, List.count_cons, hne']
  · intro hs hd hne
    refine ⟨rfl, rfl, ?_⟩
    cases hd with
    | none => simp [DrawBufW.moveAssign, DrawBufW.destruct]
    | some hd' =>
        have hne' : hd' ≠ hs := fun e => hne (by rw [e])
        simp [DrawBufW.moveAssign, DrawBufW.destruct, List.count_cons, hne']
  · intro a src
    exact ⟨rfl, rfl, rfl⟩
  · intro dst src
    refine ⟨?_, ?_, ?_⟩ <;>
      simp [StyleObj.moveAssign, StyleObj.destructFrees, LvStyleT.init]

/-- Witness for C2: the conditional parts instantiated at concrete distinct
handles. -/
theorem owning_move_transfers_once_witness :
    ((ObjectW.moveAssign ⟨some 2⟩ ⟨some 1⟩ false).2.2 ++
      (ObjectW.moveAssign ⟨some 2⟩ ⟨some 1⟩ false).1.destruct ++
      (ObjectW.moveAssign ⟨some 2⟩ ⟨some 1⟩ false).2.1.destruct).count
        (.objDelete (some 1)) = 1 ∧
    ((DrawBufW.moveAssign ⟨some 2⟩ ⟨some 1⟩ false).2.2 ++
      (DrawBufW.moveAssign ⟨some 2⟩ ⟨some 1⟩ false).1.destruct ++
      (DrawBufW.moveAssign ⟨some 2⟩ ⟨some 1⟩ false).2.1.destruct).count
        (.drawBufDestroy (some 1)) = 1 :=
  ⟨(owning_move_transfers_once.2.1 1 (some 2) (by decide)).2.2,
   (owning_move_transfers_once.2.2.2.1 1 (some 2) (by decide)).2.2⟩

/-- C3 counterexample: `Style::margin_all` forwards four engine calls
(`lv_style_set_margin_top/bottom/left/right`) in a single invocation, so not
every fluent mutator performs exactly one forwarding call. -/
theorem mutator_single_call_refuted :
    ¬ ((StyleObj.applyOp ⟨0, LvStyleT.init⟩ (StyleOp.margin_all 5)).2.length = 1) := by
  decide

/-- C3 amended: every fluent mutator of `Style`, `ObjectMixin` and
`StyleMixin` forwards a fixed sequence of engine calls determined by the
mutator and its arguments alone — one call per underlying property it sets
(so at least one, exactly one for single-property mutators such as
`ObjectMixin::visible`, and one per side for multi-property conveniences
such as `margin_all`, which makes four) — with no batching, validation, or
state-derived behaviour. -/
theorem mutator_forwarding_per_property :
    (∀ (op : StyleOp) (o : StyleObj), (o.applyOp op).2 = op.trace o.addr) ∧
    (∀ (op : StyleOp) (a : Nat), (op.trace a).length = op.sets.length) ∧
    (∀ op : StyleOp, 1 ≤ op.sets.length) ∧
    (∀ (wop : ObjOp) (w : Widget), (w.applyOp wop).2 = wop.trace w.m_obj) ∧
    (∀ (wop : ObjOp) (h : Handle), 1 ≤ (wop.trace h).length) ∧
    (∀ (m : Int) (a : Nat), ((StyleOp.margin_all m).trace a).length = 4) ∧
    (∀ (v : Bool) (h : Handle), ((ObjOp.visible v).trace h).length = 1) := by
  refine ⟨fun op o => rfl, fun op a => List.length_map _ _, ?_, fun wop w => rfl,
    ?_, fun m a => rfl, ?_⟩
  · intro op
    cases op <;> simp [StyleOp.sets]
  · intro wop h
    cases wop <;> simp [ObjOp.trace] <;> split <;> simp
  · intro v h
    cases v <;> rfl

/-- C4 counterexample: `ObjectMixin::size` on a wrapper whose handle is null
still performs an engine call (`lv_obj_set_size(nullptr, w, h)`) — it is not
guarded to be a no-op. -/
theorem null_wrapper_guard_refuted :
    ¬ ((Widget.applyOp ⟨0, none⟩ (ObjOp.size 10 20)).2 = []) := by
  decide

/-- C4 amended: the draw wrappers guard null handles — `DrawBuf` operations
on a null buffer make no engine call and return the wrapper (or a default
value such as `0`, `LV_RESULT_INVALID` or `LV_DRAW_TASK_TYPE_NONE`) — but
`ObjectView`/`ObjectMixin` operations are unguarded and forward to the
engine even when the handle is null. -/
theorem null_wrapper_guard_amended (area : Option LvArea)
    (idx color stride : Nat) (r : LvResult)
    (engineType : Nat → DrawTaskType) (engineWidth : Nat → Nat)
    (w h : Int) (a : Nat) :
    DrawBufW.clear ⟨none⟩ area = (⟨none⟩, []) ∧
    DrawBufW.set_palette ⟨none⟩ idx color = (⟨none⟩, []) ∧
    DrawBufW.invalidate_cache ⟨none⟩ area = (⟨none⟩, []) ∧
    DrawBufW.premultiply ⟨none⟩ = (⟨none⟩, []) ∧
    DrawBufW.width engineWidth ⟨none⟩ = 0 ∧
    DrawBufW.adjust_stride r ⟨none⟩ stride = (.invalid, []) ∧
    DrawTaskViewW.type engineType none = .none_ ∧
    (Widget.applyOp ⟨a, none⟩ (ObjOp.size w h)).2 = [.objSetSize none w h] :=
  ⟨rfl, rfl, rfl, rfl, rfl, rfl, rfl, rfl⟩

end LvSpec
